import Mathlib

/-!
Shallow embedding of `src/math.rs` from the rapier.js bindings crate.

The source exposes three wasm-bindgen value types, with the dimension chosen
at compile time by the mutually exclusive `dim2` / `dim3` cargo features:

* `RawVector`   — wraps `rapier::math::Vector<f32>` (2 or 3 components);
* `RawRotation` — wraps `rapier::math::Rotation<f32>` (a `UnitComplex` in 2D,
  a `UnitQuaternion` in 3D);
* `RawAngularInertia` — wraps `rapier::math::AngularInertia<Real>`
  (rapier's `SdpMatrix3`, six stored entries), 3D builds only.

The two build configurations are embedded as the namespaces `Dim2` and `Dim3`.
Since every covered operation only moves stored scalars around (no arithmetic
is performed on components except the 2D angle functions), the f32 component
type is embedded as an arbitrary type `α`: the theorems then hold for every
value of every scalar representation, which in particular covers negative
zero and subnormal f32 bit patterns as distinct values.  The 2D rotation's
`fromAngle` / `angle` operations call trigonometric functions; those are
embedded over `ℝ`, the idealization of f32 arithmetic.

Rust `&mut self` setters are embedded as state transformers returning the
updated receiver (the Rust setters return `()`); `&self` methods are pure
functions, and `borrowCall` makes the receiver's after-call state explicit.
-/

namespace Dim2

/-- nalgebra `UnitComplex<f32>` payload: a complex number stored as
(`re`, `im`).  `Unit` performs no normalization by itself. -/
structure UnitComplex where
  re : ℝ
  im : ℝ

/-- the `dim2` variant of `RawRotation`: a transparent wrapper around
`Rotation<f32> = UnitComplex<f32>`. -/
structure RawRotation where
  rot : UnitComplex

/-- from the source: `Rotation::identity()`, the unit complex number 1 + 0i. -/
def RawRotation.identity : RawRotation := ⟨⟨1, 0⟩⟩

/-- from the source: `Rotation::new(angle)`, nalgebra's
`UnitComplex::from_angle`, which builds (cos angle, sin angle). -/
noncomputable def RawRotation.fromAngle (angle : ℝ) : RawRotation :=
  ⟨⟨Real.cos angle, Real.sin angle⟩⟩

/-- getter `re()`: the stored real part, verbatim. -/
def RawRotation.re (r : RawRotation) : ℝ := r.rot.re

/-- getter `im()`: the stored imaginary part, verbatim. -/
def RawRotation.im (r : RawRotation) : ℝ := r.rot.im

/-- getter `angle()`: nalgebra computes `self.im.atan2(self.re)`, the
two-argument arctangent of (im, re), which over ℝ is exactly
`Complex.arg` of the complex number re + im·I. -/
noncomputable def RawRotation.angle (r : RawRotation) : ℝ :=
  Complex.arg ⟨r.rot.re, r.rot.im⟩

/-- the `dim2` shape of `RawVector`: two f32 components, embedded over an
arbitrary scalar type `α`. -/
structure RawVector (α : Type) where
  x : α
  y : α
  deriving DecidableEq

variable {α : Type}

/-- from the source: `Vector::zeros()`. -/
def RawVector.zero (α : Type) [Zero α] : RawVector α := ⟨0, 0⟩

/-- setter `set_x`: writes the `x` field of the receiver in place and
returns `()`; embedded as the updated receiver state. -/
def RawVector.set_x (v : RawVector α) (c : α) : RawVector α := { v with x := c }

/-- setter `set_y`: writes the `y` field of the receiver in place and
returns `()`; embedded as the updated receiver state. -/
def RawVector.set_y (v : RawVector α) (c : α) : RawVector α := { v with y := c }

/-- swizzle `xy()`: nalgebra builds the new vector (x, y) — the identity
permutation, provided for completeness. -/
def RawVector.xy (v : RawVector α) : RawVector α := ⟨v.x, v.y⟩

/-- swizzle `yx()`: nalgebra builds the new vector (y, x). -/
def RawVector.yx (v : RawVector α) : RawVector α := ⟨v.y, v.x⟩

end Dim2

namespace Dim3

/-- nalgebra `Quaternion<f32>`: coordinates are stored in the order
(i, j, k, w) — imaginary triple first, real part last — which the field
order of this structure mirrors. -/
structure Quaternion (α : Type) where
  i : α
  j : α
  k : α
  w : α

variable {α : Type}

/-- nalgebra `Quaternion::new(w, i, j, k)`: the constructor takes the real
part FIRST but stores it LAST; no normalization. -/
def Quaternion.new (w i j k : α) : Quaternion α := ⟨i, j, k, w⟩

/-- the `dim3` variant of `RawRotation`: a transparent wrapper around
`Rotation<f32> = UnitQuaternion<f32>`. -/
structure RawRotation (α : Type) where
  rot : Quaternion α

/-- from the source: `RawRotation(Unit::new_unchecked(Quaternion::new(w, x, y, z)))`.
The wasm constructor takes (x, y, z, w); `new_unchecked` performs no
renormalization and no validation whatsoever. -/
def RawRotation.new (x y z w : α) : RawRotation α := ⟨Quaternion.new w x y z⟩

/-- from the source: `Rotation::identity()`, the quaternion with w = 1 and
zero imaginary part. -/
def RawRotation.identity (α : Type) [Zero α] [One α] : RawRotation α :=
  ⟨Quaternion.new 1 0 0 0⟩

/-- getter `x()`: returns the stored `i` coordinate. -/
def RawRotation.x (r : RawRotation α) : α := r.rot.i

/-- getter `y()`: returns the stored `j` coordinate. -/
def RawRotation.y (r : RawRotation α) : α := r.rot.j

/-- getter `z()`: returns the stored `k` coordinate. -/
def RawRotation.z (r : RawRotation α) : α := r.rot.k

/-- getter `w()`: returns the stored `w` coordinate. -/
def RawRotation.w (r : RawRotation α) : α := r.rot.w

/-- the `dim3` shape of `RawVector`: three f32 components. -/
structure RawVector (α : Type) where
  x : α
  y : α
  z : α
  deriving DecidableEq

/-- from the source: `Vector::zeros()`. -/
def RawVector.zero (α : Type) [Zero α] : RawVector α := ⟨0, 0, 0⟩

/-- setter `set_x`: writes the `x` field of the receiver in place and
returns `()`; embedded as the updated receiver state. -/
def RawVector.set_x (v : RawVector α) (c : α) : RawVector α := { v with x := c }

/-- setter `set_y`: writes the `y` field of the receiver in place and
returns `()`; embedded as the updated receiver state. -/
def RawVector.set_y (v : RawVector α) (c : α) : RawVector α := { v with y := c }

/-- setter `set_z`: writes the `z` field of the receiver in place and
returns `()`; embedded as the updated receiver state. -/
def RawVector.set_z (v : RawVector α) (c : α) : RawVector α := { v with z := c }

/-- swizzle `zy()`: nalgebra builds the 2-component vector (z, y).  In the
source this method is gated on BOTH the `dim2` and `dim3` features at once
(dead code under the mutually-exclusive build model); following the spec it
is embedded as a 3D-build operation producing a 2-component vector. -/
def RawVector.zy (v : RawVector α) : Dim2.RawVector α := ⟨v.z, v.y⟩

/-- swizzle `xyz()`: nalgebra builds the new vector (x, y, z) — a copy. -/
def RawVector.xyz (v : RawVector α) : RawVector α := ⟨v.x, v.y, v.z⟩

/-- swizzle `yxz()`: nalgebra builds the new vector (y, x, z). -/
def RawVector.yxz (v : RawVector α) : RawVector α := ⟨v.y, v.x, v.z⟩

/-- swizzle `zxy()`: nalgebra builds the new vector (z, x, y). -/
def RawVector.zxy (v : RawVector α) : RawVector α := ⟨v.z, v.x, v.y⟩

/-- swizzle `xzy()`: nalgebra builds the new vector (x, z, y). -/
def RawVector.xzy (v : RawVector α) : RawVector α := ⟨v.x, v.z, v.y⟩

/-- swizzle `yzx()`: nalgebra builds the new vector (y, z, x). -/
def RawVector.yzx (v : RawVector α) : RawVector α := ⟨v.y, v.z, v.x⟩

/-- swizzle `zyx()`: nalgebra builds the new vector (z, y, x). -/
def RawVector.zyx (v : RawVector α) : RawVector α := ⟨v.z, v.y, v.x⟩

/-- rapier `SdpMatrix3`: a symmetric 3×3 tensor storing only its six
independent entries. -/
structure SdpMatrix3 (α : Type) where
  m11 : α
  m12 : α
  m13 : α
  m22 : α
  m23 : α
  m33 : α

/-- rapier `SdpMatrix3::into_matrix`: expands the six stored entries into the
full symmetric 3×3 matrix (m21 = m12, m31 = m13, m32 = m23). -/
def SdpMatrix3.toMatrix (m : SdpMatrix3 α) : Fin 3 → Fin 3 → α :=
  ![![m.m11, m.m12, m.m13], ![m.m12, m.m22, m.m23], ![m.m13, m.m23, m.m33]]

/-- `RawAngularInertia`: a transparent wrapper around
`AngularInertia<Real> = SdpMatrix3<f32>`. -/
structure RawAngularInertia (α : Type) where
  m : SdpMatrix3 α

/-- from the source: `elements()` fills a fresh `Float32Array` of length 6
with `[m11, m12, m13, m22, m23, m33]`; embedded as that list. -/
def RawAngularInertia.elements (a : RawAngularInertia α) : List α :=
  [a.m.m11, a.m.m12, a.m.m13, a.m.m22, a.m.m23, a.m.m33]

end Dim3

/-- a Rust method call through a shared `&self` borrow: the result is the
method's return value, and the receiver's state after the call, which the
borrow leaves unchanged. -/
def borrowCall {σ β : Type} (f : σ → β) (s : σ) : β × σ := (f s, s)

/-- C1: the 3D `RawRotation` constructor stores its four arguments verbatim —
no renormalization or validation, even for non-unit input — and the accessors
`x()`, `y()`, `z()`, `w()` return exactly the constructor arguments in
constructor order (not the internal (i, j, k, w) storage order, whose real
part sits last while the constructor receives it last as well but nalgebra's
`Quaternion::new` receives it first); in particular constructing with
x = 1, y = 2, z = 3, w = 4 reads back exactly 1, 2, 3, 4. -/
theorem rawRotation3_new_accessors_verbatim {α : Type} (x y z w : α) :
    ((Dim3.RawRotation.new x y z w).x = x ∧
      (Dim3.RawRotation.new x y z w).y = y ∧
      (Dim3.RawRotation.new x y z w).z = z ∧
      (Dim3.RawRotation.new x y z w).w = w) ∧
    ((Dim3.RawRotation.new (1 : ℤ) 2 3 4).x = 1 ∧
      (Dim3.RawRotation.new (1 : ℤ) 2 3 4).y = 2 ∧
      (Dim3.RawRotation.new (1 : ℤ) 2 3 4).z = 3 ∧
      (Dim3.RawRotation.new (1 : ℤ) 2 3 4).w = 4) :=
  ⟨⟨rfl, rfl, rfl, rfl⟩, rfl, rfl, rfl, rfl⟩

/-- C2: `elements()` on an angular inertia value returns exactly 6 entries in
row-major upper-triangular order [m11, m12, m13, m22, m23, m33], each equal to
the corresponding stored entry of the symmetric tensor; index 1 is m12, which
agrees with both access paths (0,1) and (1,0) of the expanded symmetric
matrix. -/
theorem rawAngularInertia_elements_spec {α : Type} (a : Dim3.RawAngularInertia α) :
    a.elements.length = 6 ∧
    a.elements = [a.m.m11, a.m.m12, a.m.m13, a.m.m22, a.m.m23, a.m.m33] ∧
    a.elements[1]? = some (a.m.toMatrix 0 1) ∧
    a.m.toMatrix 0 1 = a.m.toMatrix 1 0 := by
  refine ⟨rfl, rfl, ?_, ?_⟩ <;>
    simp [Dim3.RawAngularInertia.elements, Dim3.SdpMatrix3.toMatrix]

/-- C3: for every angle a in (−π, π], `fromAngle(a)` builds the unit complex
number (cos a, sin a), and `fromAngle(a).angle()` — the two-argument
arctangent of (im, re) — lies in (−π, π] and equals a (exactly, in the
real-valued model of f32 arithmetic, hence within any tolerance). -/
theorem rawRotation2_fromAngle_angle_roundtrip (a : ℝ)
    (ha : a ∈ Set.Ioc (-Real.pi) Real.pi) :
    (Dim2.RawRotation.fromAngle a).re = Real.cos a ∧
    (Dim2.RawRotation.fromAngle a).im = Real.sin a ∧
    (Dim2.RawRotation.fromAngle a).angle = a ∧
    (Dim2.RawRotation.fromAngle a).angle ∈ Set.Ioc (-Real.pi) Real.pi := by
  have key : (Dim2.RawRotation.fromAngle a).angle = a := by
    show Complex.arg ⟨Real.cos a, Real.sin a⟩ = a
    rw [Complex.mk_eq_add_mul_I, Complex.ofReal_cos, Complex.ofReal_sin]
    exact Complex.arg_cos_add_sin_mul_I ha
  refine ⟨rfl, rfl, key, ?_⟩
  rw [key]
  exact ha

/-- witness for C3 at the concrete angle a = 0. -/
theorem rawRotation2_fromAngle_angle_roundtrip_witness :
    (0 : ℝ) ∈ Set.Ioc (-Real.pi) Real.pi ∧
    (Dim2.RawRotation.fromAngle 0).angle = 0 := by
  have h0 : (0 : ℝ) ∈ Set.Ioc (-Real.pi) Real.pi :=
    ⟨neg_lt_zero.mpr Real.pi_pos, Real.pi_pos.le⟩
  exact ⟨h0, (rawRotation2_fromAngle_angle_roundtrip 0 h0).2.2.1⟩

/-- C4: each of the six 3D swizzles returns a new vector holding the source's
components in the named axis order; in particular `zyx` on (1, 2, 3) gives
(3, 2, 1) and `yzx` on (1, 2, 3) gives (2, 3, 1). -/
theorem rawVector3_swizzles_named_order {α : Type} (v : Dim3.RawVector α) :
    v.xyz = ⟨v.x, v.y, v.z⟩ ∧
    v.yxz = ⟨v.y, v.x, v.z⟩ ∧
    v.zxy = ⟨v.z, v.x, v.y⟩ ∧
    v.xzy = ⟨v.x, v.z, v.y⟩ ∧
    v.yzx = ⟨v.y, v.z, v.x⟩ ∧
    v.zyx = ⟨v.z, v.y, v.x⟩ ∧
    (Dim3.RawVector.mk (1 : ℤ) 2 3).zyx = ⟨3, 2, 1⟩ ∧
    (Dim3.RawVector.mk (1 : ℤ) 2 3).yzx = ⟨2, 3, 1⟩ :=
  ⟨rfl, rfl, rfl, rfl, rfl, rfl, rfl, rfl⟩

/-- C5: the `identity()` factory yields re = 1, im = 0 in the 2D build and
w = 1, x = y = z = 0 in the 3D build. -/
theorem rawRotation_identity_components {α : Type} [Zero α] [One α] :
    Dim2.RawRotation.identity.re = 1 ∧
    Dim2.RawRotation.identity.im = 0 ∧
    (Dim3.RawRotation.identity α).w = 1 ∧
    (Dim3.RawRotation.identity α).x = 0 ∧
    (Dim3.RawRotation.identity α).y = 0 ∧
    (Dim3.RawRotation.identity α).z = 0 :=
  ⟨rfl, rfl, rfl, rfl, rfl, rfl⟩

/-- C6 counterexample: on the concrete 2D vector (1, 2), `xy()` then `yx()`
yields (2, 1), not the original order (1, 2) — `xy()` is the identity
permutation, so the composition performs one swap, not two. -/
theorem rawVector2_xy_yx_not_original :
    ¬((Dim2.RawVector.mk (1 : ℕ) 2).xy.yx = Dim2.RawVector.mk 1 2) := by
  decide

/-- C6 amended: for every 2D vector v, `v.xy().yx()` equals (v.y, v.x) — the
components swapped ONCE, because `xy()` is the identity swizzle and only
`yx()` swaps. -/
theorem rawVector2_xy_yx_single_swap {α : Type} (v : Dim2.RawVector α) :
    v.xy.yx = Dim2.RawVector.mk v.y v.x :=
  rfl

/-- C7: the `zy()` swizzle, taken as a 3D-build operation as the spec
directs (in the source it is gated on both feature flags at once), returns
the fresh 2-component vector (v.z, v.y) for every vector v. -/
theorem rawVector3_zy_components {α : Type} (v : Dim3.RawVector α) :
    v.zy = Dim2.RawVector.mk v.z v.y :=
  rfl

/-- C8: for every vector, every axis and every component value c — the
scalar type is arbitrary, so this covers every f32 bit pattern including
negative zero and subnormals, with no rounding possible — setting an axis to
c and then reading the same axis returns exactly c. -/
theorem rawVector_set_get_exact {α : Type}
    (v2 : Dim2.RawVector α) (v3 : Dim3.RawVector α) (c : α) :
    (v2.set_x c).x = c ∧
    (v2.set_y c).y = c ∧
    (v3.set_x c).x = c ∧
    (v3.set_y c).y = c ∧
    (v3.set_z c).z = c :=
  ⟨rfl, rfl, rfl, rfl, rfl⟩

/-- C9: every swizzle operation (`xy`, `yx` in the 2D build, `zy` and the six
3D permutations) is a `&self` method: it returns a freshly built vector and
the receiver's state after the call equals its state before the call. -/
theorem rawVector_swizzles_preserve_receiver {α : Type}
    (v2 : Dim2.RawVector α) (v3 : Dim3.RawVector α) :
    (borrowCall Dim2.RawVector.xy v2).2 = v2 ∧
    (borrowCall Dim2.RawVector.yx v2).2 = v2 ∧
    (borrowCall Dim3.RawVector.zy v3).2 = v3 ∧
    (borrowCall Dim3.RawVector.xyz v3).2 = v3 ∧
    (borrowCall Dim3.RawVector.yxz v3).2 = v3 ∧
    (borrowCall Dim3.RawVector.zxy v3).2 = v3 ∧
    (borrowCall Dim3.RawVector.xzy v3).2 = v3 ∧
    (borrowCall Dim3.RawVector.yzx v3).2 = v3 ∧
    (borrowCall Dim3.RawVector.zyx v3).2 = v3 :=
  ⟨rfl, rfl, rfl, rfl, rfl, rfl, rfl, rfl, rfl⟩

/-- C10: each per-axis setter mutates only its own component: after
`set_x(c)` the y (and z) components are unchanged, after `set_y(c)` the
x (and z) components are unchanged, and after `set_z(c)` in the 3D build the
x and y components are unchanged. -/
theorem rawVector_setters_frame {α : Type}
    (v2 : Dim2.RawVector α) (v3 : Dim3.RawVector α) (c : α) :
    (v2.set_x c).y = v2.y ∧
    (v2.set_y c).x = v2.x ∧
    (v3.set_x c).y = v3.y ∧
    (v3.set_x c).z = v3.z ∧
    (v3.set_y c).x = v3.x ∧
    (v3.set_y c).z = v3.z ∧
    (v3.set_z c).x = v3.x ∧
    (v3.set_z c).y = v3.y :=
  ⟨rfl, rfl, rfl, rfl, rfl, rfl, rfl, rfl⟩
